import Mathlib

/-!
# Verification of the FSFVI core algorithms

A shallow embedding of `src/frontend/src/lib/fsfvi-algorithms.ts` (the FSFVI
computation pipeline and the allocation optimizer).  JavaScript numbers are
modelled as exact rationals (`ℚ`); TypeScript `T | null` / optional fields are
modelled as `Option`; a TypeScript `Record<string, T>` (whose keys are unique
by construction) is modelled as an association list `List (String × T)` read
through `List.lookup`.  Every definition is a direct transcription of the
corresponding TypeScript function and keeps its source name.
-/

set_option maxRecDepth 4000

attribute [local semireducible] Rat.mul Rat.add Rat.sub Rat.inv Rat.ofScientific

/-- The `Indicator` interface (fsfvi-algorithms.ts, lines 13-20). -/
structure Indicator where
  projectName : String
  matchScore : ℚ
  expenditures : ℚ
  value : Option ℚ
  benchmark : Option ℚ
  performanceGap : ℚ
deriving DecidableEq, Repr

/-- The `FSFVIComponent` interface (lines 2-11).  Optional fields
(`sensitivityParameter?`, `weight?`, `vulnerability?`) become `Option ℚ`. -/
structure FSFVIComponent where
  id : String
  name : String
  indicators : List Indicator
  totalExpenditures : ℚ
  averagePerformanceGap : ℚ
  sensitivityParameter : Option ℚ
  weight : Option ℚ
  vulnerability : Option ℚ
deriving DecidableEq, Repr

/-- The `FSFVIData` interface (lines 22-25): a record of subsectors plus the
total budget. -/
structure FSFVIData where
  subsectors : List (String × FSFVIComponent)
  totalBudget : ℚ
deriving DecidableEq, Repr

/-- Algorithm 1, `calculatePerformanceGap` (lines 66-108), transcribed branch
by branch; `value`/`benchmark` may be `null`. -/
def calculatePerformanceGap (value benchmark : Option ℚ) (preferHigher : Bool) : ℚ :=
  match value, benchmark with
  | none, _ => 0
  | some _, none => 0
  | some v, some b =>
    if v = 0 then
      if b = 0 then 0
      else if preferHigher then 5 else 0
    else if v < 0 ∧ b < 0 then
      let absValue := |v|
      let absBenchmark := |b|
      if preferHigher then
        if absValue > absBenchmark then 0 else (absValue - absBenchmark) / absValue
      else
        if absValue < absBenchmark then 0 else (absBenchmark - absValue) / absValue
    else if preferHigher then
      if v ≥ b then 0 else (b - v) / |v|
    else
      if v ≤ b then 0 else (v - b) / |v|

/-- The optional `options` record taken by `calculateComponentAverageGap`
(lines 120-127), which is also the `gapCalculation` part of `FSFVIConfig`
(lines 43-50). -/
structure GapOptions where
  useWeightedAverage : Option Bool
  trimOutliers : Option Bool
  capMaxGap : Option ℚ
  usePercentileCapping : Option Bool
  percentileThreshold : Option ℚ
  perSubsectorCaps : Option (List (String × ℚ))
deriving DecidableEq, Repr

/-- Indicators with a non-negative performance gap (line 143-144); the source
also checks `< Infinity`, which is vacuous in the exact-rational model. -/
def validOf (indicators : List Indicator) : List Indicator :=
  indicators.filter (fun i => decide (0 ≤ i.performanceGap))

/-- Cap determination before percentile capping (lines 134-140): the default
cap is 8.0, overridden by a per-subsector cap when the subsector id is given
and its cap is truthy (a cap of 0 is falsy in JavaScript and is ignored). -/
def initialCap (options : Option GapOptions) (subsectorId : Option String) : ℚ :=
  let base := (options.bind GapOptions.capMaxGap).getD 8.0
  match subsectorId, options.bind GapOptions.perSubsectorCaps with
  | some sid, some caps =>
    match caps.lookup sid with
    | some c => if c = 0 then base else c
    | none => base
  | _, _ => base

/-- Stable ascending sort by performance gap, as the JavaScript
`sort((a, b) => a.performanceGap - b.performanceGap)` (lines 157, 179). -/
def sortByGap (l : List Indicator) : List Indicator :=
  l.mergeSort (fun a b => decide (a.performanceGap ≤ b.performanceGap))

/-- Effective cap including percentile-based capping (lines 151-167): with at
least 3 valid indicators and percentile capping on, the cap becomes the sorted
gap at index `floor(n * threshold / 100)` when that index is in range. -/
def effCap (validIndicators : List Indicator) (options : Option GapOptions)
    (subsectorId : Option String) : ℚ :=
  let cap0 := initialCap options subsectorId
  if (options.bind GapOptions.usePercentileCapping).getD false ∧ 3 ≤ validIndicators.length then
    let percentileThreshold := (options.bind GapOptions.percentileThreshold).getD 95
    let sortedGaps := (sortByGap validIndicators).map Indicator.performanceGap
    let thresholdIndex : ℤ := Int.floor ((sortedGaps.length : ℚ) * percentileThreshold / 100)
    if 0 < thresholdIndex ∧ thresholdIndex < (sortedGaps.length : ℤ) then
      sortedGaps.getD thresholdIndex.toNat 0
    else cap0
  else cap0

/-- Clamping of every indicator's gap to the cap (lines 169-174). -/
def capIndicators (l : List Indicator) (cap : ℚ) : List Indicator :=
  l.map (fun i => { i with performanceGap := min i.performanceGap cap })

/-- The valid indicators with the effective cap applied, as computed at
lines 142-174 of `calculateComponentAverageGap`. -/
def cappedValid (indicators : List Indicator) (options : Option GapOptions)
    (subsectorId : Option String) : List Indicator :=
  capIndicators (validOf indicators) (effCap (validOf indicators) options subsectorId)

/-- The final reduction (lines 199-213): weighted mean using `matchScore || 1`
as the weight, or the simple arithmetic mean. -/
def aggregateMean (cappedIndicators : List Indicator) (useWeightedAverage : Bool) : ℚ :=
  if useWeightedAverage then
    let totalWeight := cappedIndicators.foldl
      (fun sum i => sum + (if i.matchScore = 0 then 1 else i.matchScore)) 0
    let weightedSum := cappedIndicators.foldl
      (fun sum i => sum + i.performanceGap * (if i.matchScore = 0 then 1 else i.matchScore)) 0
    if 0 < totalWeight then weightedSum / totalWeight else 0
  else
    (cappedIndicators.foldl (fun sum i => sum + i.performanceGap) 0) /
      (cappedIndicators.length : ℚ)

/-- Removal of the lowest and highest 10% (lines 178-186):
`slice(trimCount, length - trimCount)` of the sorted list with
`trimCount = floor(length * 0.1)`. -/
def trimOutlierSet (cappedIndicators : List Indicator) : List Indicator :=
  let sorted := sortByGap cappedIndicators
  let trimCount := sorted.length / 10
  (sorted.drop trimCount).take (sorted.length - trimCount - trimCount)

/-- The `{ ...options, trimOutliers: false }` record passed to the recursive
calls at lines 190-191 and 195-196. -/
def disableTrim (options : Option GapOptions) : Option GapOptions :=
  match options with
  | some o => some { o with trimOutliers := some false }
  | none => some ⟨none, some false, none, none, none, none⟩

/-- The body of `calculateComponentAverageGap` when the trimming branch is
not taken; with `trimOutliers` resolving to `false` the source function
executes exactly this (filter, cap, reduce), so the depth-one recursive calls
of lines 190-196 are embedded as calls of this function (their options force
`trimOutliers: false`, see `calculateComponentAverageGap_trim_false`). -/
def calcAverageGapNoTrim (indicators : List Indicator) (options : Option GapOptions)
    (subsectorId : Option String) : ℚ :=
  if (validOf indicators).length = 0 then 0
  else
    aggregateMean (cappedValid indicators options subsectorId)
      ((options.bind GapOptions.useWeightedAverage).getD false)

/-- `calculateComponentAverageGap` (lines 118-214). -/
def calculateComponentAverageGap (indicators : List Indicator)
    (options : Option GapOptions) (subsectorId : Option String) : ℚ :=
  if (validOf indicators).length = 0 then 0
  else
    let cappedIndicators := cappedValid indicators options subsectorId
    if (options.bind GapOptions.trimOutliers).getD true ∧ 5 < cappedIndicators.length then
      let trimmedIndicators := trimOutlierSet cappedIndicators
      if trimmedIndicators.length = 0 then
        calcAverageGapNoTrim indicators (disableTrim options) subsectorId
      else
        calcAverageGapNoTrim trimmedIndicators (disableTrim options) subsectorId
    else
      aggregateMean cappedIndicators ((options.bind GapOptions.useWeightedAverage).getD false)


/-- The options record taken by `preprocessData` (lines 226-236). -/
structure PreprocessOptions where
  gapCalculation : Option GapOptions
  metricPreference : Option (List (String × Bool))
deriving DecidableEq, Repr

/-- The `defaultMetricPreferences` table of `preprocessData` (lines 245-256). -/
def defaultMetricPreferences : List (String × Bool) :=
  [("Food availability", true),
   ("Food security", true),
   ("Production systems and input supply", true),
   ("Processing and packaging", true),
   ("Retail and marketing", true),
   ("Nutritional status", true),
   ("Environmental impacts", false),
   ("Environment and climate change", false),
   ("Resilience", true),
   ("Storage and distribution", true)]

/-- Preference lookup of `preprocessData` (lines 259-268): provided
preferences override the defaults (object spread), and an absent key defaults
to `true`. -/
def metricPrefFor (options : Option PreprocessOptions) (key : String) : Bool :=
  match ((options.bind PreprocessOptions.metricPreference).getD []).lookup key with
  | some b => b
  | none =>
    match defaultMetricPreferences.lookup key with
    | some b => b
    | none => true

/-- Per-indicator preprocessing (lines 271-288): keep an existing valid gap
(`>= 0`; the `!== undefined` and `< Infinity` checks are vacuous here),
otherwise recompute it from value and benchmark. -/
def processIndicator (preferHigher : Bool) (i : Indicator) : Indicator :=
  if 0 ≤ i.performanceGap then i
  else { i with performanceGap := calculatePerformanceGap i.value i.benchmark preferHigher }

/-- Per-subsector preprocessing (lines 265-302): recompute indicator gaps as
needed and the average performance gap. -/
def preprocessComponent (options : Option PreprocessOptions) (key : String)
    (subsector : FSFVIComponent) : FSFVIComponent :=
  let preferHigher := metricPrefFor options key
  let processedIndicators := subsector.indicators.map (processIndicator preferHigher)
  { subsector with
    indicators := processedIndicators,
    averagePerformanceGap := calculateComponentAverageGap processedIndicators
      (options.bind PreprocessOptions.gapCalculation) (some key) }

/-- `preprocessData` (lines 224-306). -/
def preprocessData (data : FSFVIData) (options : Option PreprocessOptions) : FSFVIData :=
  { subsectors := data.subsectors.map (fun ks => (ks.1, preprocessComponent options ks.1 ks.2)),
    totalBudget := data.totalBudget }

/-- Algorithm 2, `calculateComponentVulnerability` (lines 318-328):
`max 0` clamps a negative allocation, then `gap * 1/(1 + sensitivity*alloc)`. -/
def calculateComponentVulnerability (performanceGap financialAllocation
    sensitivityParameter : ℚ) : ℚ :=
  let allocation := max 0 financialAllocation
  performanceGap * (1 / (1 + sensitivityParameter * allocation))

/-- The `baselineSensitivity` table (lines 348-364). -/
def baselineSensitivity : List (String × ℚ) :=
  [("Food availability", 0.70),
   ("Storage and distribution", 0.65),
   ("Processing and packaging", 0.60),
   ("Retail and marketing", 0.60),
   ("Production systems and input supply", 0.50),
   ("Nutritional status", 0.45),
   ("Food security", 0.40),
   ("Resilience", 0.30),
   ("Environmental impacts", 0.25),
   ("Environment and climate change", 0.20)]

/-- Sensitivity estimation for one subsector (lines 375-403): baseline (or the
0.40 default, also taken when the table value is falsy), complexity penalty,
scale bonus, lag penalty, clamped to [0.1, 0.8]. -/
def estimateSensitivityForComponent (key : String) (subsector : FSFVIComponent) : ℚ :=
  let base := match baselineSensitivity.lookup key with
    | some v => if v = 0 then 0.40 else v
    | none => 0.40
  let e1 := if 10 < subsector.indicators.length then
    base - 0.15 * ((subsector.indicators.length : ℚ) / 20) else base
  let normalizedExpenditure := subsector.totalExpenditures / 100
  let e2 := if 0.5 < normalizedExpenditure then
    e1 + 0.10 * min normalizedExpenditure 1.0 else e1
  let e3 := if 1.0 < subsector.averagePerformanceGap then
    e2 - 0.20 * min (subsector.averagePerformanceGap / 3) 1.0 else e2
  max 0.1 (min 0.8 e3)

/-- `estimateSensitivityParameters` (lines 341-407). -/
def estimateSensitivityParameters (subsectors : List (String × FSFVIComponent)) :
    List (String × FSFVIComponent) :=
  subsectors.map (fun ks => (ks.1,
    { ks.2 with sensitivityParameter := some (estimateSensitivityForComponent ks.1 ks.2) }))

/-- The `contextualFactors` record (lines 35-40, 421-427). -/
structure ContextualFactors where
  climateEmergency : Option Bool
  foodCrisis : Option Bool
  nutritionCrisis : Option Bool
  marketDevelopment : Option Bool
deriving DecidableEq, Repr

/-- The config record taken by `assignComponentWeights` (lines 419-427). -/
structure WeightConfig where
  policyPriorities : Option (List (String × ℚ))
  contextualFactors : Option ContextualFactors
deriving DecidableEq, Repr

/-- The `baseWeights` table (lines 433-449). -/
def baseWeights : List (String × ℚ) :=
  [("Food availability", 0.18),
   ("Food security", 0.15),
   ("Resilience", 0.12),
   ("Environment and climate change", 0.10),
   ("Production systems and input supply", 0.10),
   ("Storage and distribution", 0.09),
   ("Processing and packaging", 0.07),
   ("Retail and marketing", 0.07),
   ("Environmental impacts", 0.06),
   ("Nutritional status", 0.06)]

/-- Base weight lookup with the 0.025 default (lines 452-458); a falsy table
value would also fall back to the default (`baseWeights[key] || defaultWeight`). -/
def baseWeightFor (key : String) : ℚ :=
  match baseWeights.lookup key with
  | some v => if v = 0 then 0.025 else v
  | none => 0.025

/-- Component sets boosted by the contextual factors (lines 477, 487, 497, 507). -/
def climateComponents : List String :=
  ["Environment and climate change", "Environmental impacts", "Resilience"]

/-- Components boosted in a food crisis (line 487). -/
def foodCrisisComponents : List String :=
  ["Food availability", "Food security", "Storage and distribution"]

/-- Components boosted in a nutrition crisis (line 497). -/
def nutritionComponents : List String := ["Nutritional status", "Food security"]

/-- Components boosted for market development (line 507). -/
def marketComponents : List String :=
  ["Retail and marketing", "Processing and packaging", "Storage and distribution"]

/-- Multiplicative contextual boost for one key (lines 472-514); a key in
several matched sets is boosted multiplicatively. -/
def boostFactor (factors : Option ContextualFactors) (key : String) : ℚ :=
  match factors with
  | none => 1
  | some f =>
    (if f.climateEmergency.getD false ∧ key ∈ climateComponents then 1.5 else 1) *
    (if f.foodCrisis.getD false ∧ key ∈ foodCrisisComponents then 1.8 else 1) *
    (if f.nutritionCrisis.getD false ∧ key ∈ nutritionComponents then 1.7 else 1) *
    (if f.marketDevelopment.getD false ∧ key ∈ marketComponents then 1.4 else 1)

/-- The working weight of one subsector before normalization (lines 454-514):
base weight, times the policy-priority multiplier when one is given for this
key, times the contextual boosts. -/
def workingWeight (config : Option WeightConfig) (key : String) : ℚ :=
  baseWeightFor key *
    (((config.bind WeightConfig.policyPriorities).getD []).lookup key).getD 1 *
    boostFactor (config.bind WeightConfig.contextualFactors) key

/-- The normalization denominator (line 517): the sum of all working weights. -/
def totalWorkingWeight (subsectors : List (String × FSFVIComponent))
    (config : Option WeightConfig) : ℚ :=
  subsectors.foldl (fun sum ks => sum + workingWeight config ks.1) 0

/-- `assignComponentWeights` (lines 417-525). -/
def assignComponentWeights (subsectors : List (String × FSFVIComponent))
    (config : Option WeightConfig) : List (String × FSFVIComponent) :=
  let totalWeight := totalWorkingWeight subsectors config
  subsectors.map (fun ks => (ks.1,
    { ks.2 with weight := some (workingWeight config ks.1 / totalWeight) }))

/-- Sum of the assigned weights over a subsector list (missing weights count
as zero, matching how `calculateFSFVI` skips them). -/
def weightSum (subsectors : List (String × FSFVIComponent)) : ℚ :=
  subsectors.foldl (fun sum ks => sum + (ks.2.weight.getD 0)) 0

/-- The full `FSFVIConfig` record (lines 30-54). -/
structure FSFVIConfig where
  policyPriorities : Option (List (String × ℚ))
  contextualFactors : Option ContextualFactors
  gapCalculation : Option GapOptions
  metricPreference : Option (List (String × Bool))
deriving DecidableEq, Repr

/-- `calculateVulnerabilities` (lines 534-584): preprocess, estimate
sensitivities, assign weights, then compute each subsector's vulnerability
from its average gap, expenditures and (non-null asserted) sensitivity. -/
def calculateVulnerabilities (data : FSFVIData) (config : Option FSFVIConfig) : FSFVIData :=
  let dataWithGaps := preprocessData data (some
    ⟨config.bind FSFVIConfig.gapCalculation, config.bind FSFVIConfig.metricPreference⟩)
  let subsectorsWithSensitivity := estimateSensitivityParameters dataWithGaps.subsectors
  let subsectorsWithWeights := assignComponentWeights subsectorsWithSensitivity (some
    ⟨config.bind FSFVIConfig.policyPriorities, config.bind FSFVIConfig.contextualFactors⟩)
  { subsectors := subsectorsWithWeights.map (fun ks => (ks.1,
      { ks.2 with vulnerability := some (calculateComponentVulnerability
          ks.2.averagePerformanceGap ks.2.totalExpenditures
          (ks.2.sensitivityParameter.getD 0)) })),
    totalBudget := data.totalBudget }

/-- Algorithm 3, `calculateFSFVI` (lines 594-609): sum of weight times
vulnerability, skipping subsectors missing either. -/
def calculateFSFVI (data : FSFVIData) : ℚ :=
  data.subsectors.foldl (fun acc ks =>
    match ks.2.weight, ks.2.vulnerability with
    | some w, some v => acc + w * v
    | _, _ => acc) 0

/-- The `effectiveConfig` built by `computeFSFVI` (lines 634-644): note that
the default it fills in for `capMaxGap` is 5.0, and that the percentile and
per-subsector cap options are dropped. -/
def effectiveConfig (config : Option FSFVIConfig) : FSFVIConfig :=
  { policyPriorities := some ((config.bind FSFVIConfig.policyPriorities).getD []),
    contextualFactors := some ((config.bind FSFVIConfig.contextualFactors).getD
      ⟨none, none, none, none⟩),
    gapCalculation := some
      ⟨some (((config.bind FSFVIConfig.gapCalculation).bind GapOptions.useWeightedAverage).getD false),
       some (((config.bind FSFVIConfig.gapCalculation).bind GapOptions.trimOutliers).getD true),
       some (((config.bind FSFVIConfig.gapCalculation).bind GapOptions.capMaxGap).getD 5.0),
       none, none, none⟩,
    metricPreference := some ((config.bind FSFVIConfig.metricPreference).getD []) }

/-- The part of `computeFSFVI`'s result used by the rest of the code; the
purely informational `diagnostics` record (lines 662-691) is not modelled. -/
structure ComputeResult where
  fsfviValue : ℚ
  processedData : FSFVIData
deriving DecidableEq, Repr

/-- `computeFSFVI` (lines 618-692): preprocess, calculate vulnerabilities
(which preprocesses again), aggregate. -/
def computeFSFVI (data : FSFVIData) (config : Option FSFVIConfig) : ComputeResult :=
  let eff := effectiveConfig config
  let preprocessedData := preprocessData data (some ⟨eff.gapCalculation, eff.metricPreference⟩)
  let dataWithVulnerabilities := calculateVulnerabilities preprocessedData (some eff)
  { fsfviValue := calculateFSFVI dataWithVulnerabilities,
    processedData := dataWithVulnerabilities }

/-- Convenience lookup into an allocation record, as the JavaScript
`record[id]` reads used throughout the optimizer (the keys read are always
present, so the default is never exercised). -/
def lookupD (l : List (String × ℚ)) (k : String) : ℚ :=
  (l.lookup k).getD 0

/-- Sum of the values of an allocation record, as
`Object.values(...).reduce((sum, val) => sum + val, 0)` (lines 807, 849). -/
def sumAllocs (l : List (String × ℚ)) : ℚ :=
  l.foldl (fun sum a => sum + a.2) 0

/-- The per-component gradient of the optimizer (lines 763-766):
`-1 * gap * sensitivity / (1 + sensitivity*alloc)^2 * weight`. -/
def gradientFor (component : FSFVIComponent) (currentAllocation : ℚ) : ℚ :=
  -1 * component.averagePerformanceGap * (component.sensitivityParameter.getD 0) /
    (1 + (component.sensitivityParameter.getD 0) * currentAllocation) ^ 2 *
    (component.weight.getD 0)

/-- The gradient record computed at lines 754-769, keyed like the working
subsector record. -/
def computeGradients (subsectors : List (String × FSFVIComponent))
    (allocs : List (String × ℚ)) : List (String × ℚ) :=
  subsectors.map (fun ks => (ks.1, gradientFor ks.2 (lookupD allocs ks.1)))

/-- Total absolute gradient magnitude (lines 772-773). -/
def totalGradientMagnitude (gradients : List (String × ℚ)) : ℚ :=
  gradients.foldl (fun sum g => sum + |g.2|) 0

/-- Tentative allocations of one iteration (lines 778-793): move against the
normalized gradient scaled by the learning rate and the budget, then clamp to
the min and max constraints. -/
def tentativeAllocationsOf (totalBudget learningRate totalMag : ℚ)
    (minAllocations maxAllocations gradients allocs : List (String × ℚ)) :
    List (String × ℚ) :=
  gradients.map (fun g =>
    let normalizedGradient := g.2 / totalMag
    let adjustmentFactor := learningRate * normalizedGradient
    let newAllocation := lookupD allocs g.1 - adjustmentFactor * totalBudget
    (g.1, min (max newAllocation (lookupD minAllocations g.1)) (lookupD maxAllocations g.1)))

/-- Scaling to the budget with re-clamping of minima only (lines 796-804). -/
def scaleAndClampMin (scaleFactor : ℚ) (minAllocations tentative : List (String × ℚ)) :
    List (String × ℚ) :=
  tentative.map (fun t => (t.1, max (t.2 * scaleFactor) (lookupD minAllocations t.1)))

/-- Redistribution of any remaining budget discrepancy (lines 806-823):
if the total misses the budget by more than 0.001, split the remainder evenly
over the components strictly between their bounds. -/
def redistribute (totalBudget : ℚ) (minAllocations maxAllocations
    allocs : List (String × ℚ)) : List (String × ℚ) :=
  let remainingBudget := totalBudget - sumAllocs allocs
  if 0.001 < |remainingBudget| then
    let adjustableCount := (allocs.filter (fun a =>
      decide (lookupD minAllocations a.1 < a.2 ∧ a.2 < lookupD maxAllocations a.1))).length
    if 0 < adjustableCount then
      let adjustmentPerComponent := remainingBudget / (adjustableCount : ℚ)
      allocs.map (fun a =>
        if lookupD minAllocations a.1 < a.2 ∧ a.2 < lookupD maxAllocations a.1 then
          (a.1, a.2 + adjustmentPerComponent)
        else a)
    else allocs
  else allocs

/-- The allocations produced by one loop iteration (lines 778-823): tentative
step, budget rescale with min re-clamping, then redistribution. -/
def iterationAllocations (totalBudget learningRate : ℚ)
    (minAllocations maxAllocations : List (String × ℚ))
    (subsectors : List (String × FSFVIComponent)) (allocs : List (String × ℚ)) :
    List (String × ℚ) :=
  let gradients := computeGradients subsectors allocs
  let totalMag := totalGradientMagnitude gradients
  let tentative := tentativeAllocationsOf totalBudget learningRate totalMag
    minAllocations maxAllocations gradients allocs
  let scaled := scaleAndClampMin (totalBudget / sumAllocs tentative) minAllocations tentative
  redistribute totalBudget minAllocations maxAllocations scaled

/-- Update of the working subsector record with new allocations (lines
825-834 and 857-864): set `totalExpenditures` and recompute `vulnerability`. -/
def updateWorkingSubs (subsectors : List (String × FSFVIComponent))
    (allocs : List (String × ℚ)) : List (String × FSFVIComponent) :=
  subsectors.map (fun ks => (ks.1,
    { ks.2 with
      totalExpenditures := lookupD allocs ks.1,
      vulnerability := some (calculateComponentVulnerability ks.2.averagePerformanceGap
        (lookupD allocs ks.1) (ks.2.sensitivityParameter.getD 0)) }))

/-- The mutable state of the optimization loop (lines 734-747).  `prevFSFVI`
is `none` for the initial `Infinity` sentinel; `broke` records that the
zero-gradient `break` (line 775) has fired. -/
structure OptState where
  workingSubs : List (String × FSFVIComponent)
  currentAllocations : List (String × ℚ)
  currentFSFVI : ℚ
  prevFSFVI : Option ℚ
  learningRate : ℚ
  broke : Bool
deriving DecidableEq, Repr

/-- The system index recomputed by one iteration from its new allocations
(lines 825-837). -/
def iterationIndex (totalBudget : ℚ) (minAllocations maxAllocations : List (String × ℚ))
    (st : OptState) : ℚ :=
  calculateFSFVI
    { subsectors := updateWorkingSubs st.workingSubs
        (iterationAllocations totalBudget st.learningRate minAllocations maxAllocations
          st.workingSubs st.currentAllocations),
      totalBudget := totalBudget }

/-- One iteration of the optimization loop (lines 750-845): remember the
previous index, compute gradients (breaking on zero total magnitude), update
the allocations and the working data, then apply the adaptive learning-rate
rule — on improvement the rate grows by 1.1, otherwise it halves and the
recorded index reverts to the previous one while the new allocations are
kept. -/
def optStep (totalBudget : ℚ) (minAllocations maxAllocations : List (String × ℚ))
    (st : OptState) : OptState :=
  let prevFSFVI := st.currentFSFVI
  let gradients := computeGradients st.workingSubs st.currentAllocations
  if totalGradientMagnitude gradients = 0 then
    { st with prevFSFVI := some prevFSFVI, broke := true }
  else
    let newAllocs := iterationAllocations totalBudget st.learningRate
      minAllocations maxAllocations st.workingSubs st.currentAllocations
    let newSubs := updateWorkingSubs st.workingSubs newAllocs
    let newFSFVI := calculateFSFVI { subsectors := newSubs, totalBudget := totalBudget }
    if newFSFVI < prevFSFVI then
      { workingSubs := newSubs, currentAllocations := newAllocs,
        currentFSFVI := newFSFVI, prevFSFVI := some prevFSFVI,
        learningRate := st.learningRate * 1.1, broke := false }
    else
      { workingSubs := newSubs, currentAllocations := newAllocs,
        currentFSFVI := prevFSFVI, prevFSFVI := some prevFSFVI,
        learningRate := st.learningRate * 0.5, broke := false }

/-- The `while` guard `(prevFSFVI - currentFSFVI) > minImprovement`
(line 749); `none` models the initial `Infinity`, for which the guard is
always true. -/
def loopCond (st : OptState) : Bool :=
  match st.prevFSFVI with
  | none => true
  | some p => decide (0.0001 < p - st.currentFSFVI)

/-- The optimization loop (lines 749-846): at most `fuel` further iterations
(`maxIterations = 100` at the top call), stopping on the guard or after a
`break`. -/
def optLoop (totalBudget : ℚ) (minAllocations maxAllocations : List (String × ℚ)) :
    Nat → OptState → OptState
  | 0, st => st
  | n + 1, st =>
    if st.broke then st
    else if loopCond st then
      optLoop totalBudget minAllocations maxAllocations n
        (optStep totalBudget minAllocations maxAllocations st)
    else st

/-- The minimum-allocation constraints (lines 729-730):
`max(original * 0.01, 0.1)`. -/
def minAllocationsOf (originalAllocations : List (String × ℚ)) : List (String × ℚ) :=
  originalAllocations.map (fun a => (a.1, max (a.2 * 0.01) 0.1))

/-- The maximum-allocation constraints (line 731):
`min(original * 2, totalBudget * 0.4)`. -/
def maxAllocationsOf (totalBudget : ℚ) (originalAllocations : List (String × ℚ)) :
    List (String × ℚ) :=
  originalAllocations.map (fun a => (a.1, min (a.2 * 2) (totalBudget * 0.4)))

/-- The final adjustment to the budget constraint (lines 848-855): rescale
every allocation by `totalBudget / finalTotal`. -/
def finalRescale (totalBudget : ℚ) (allocs : List (String × ℚ)) : List (String × ℚ) :=
  let finalScaleFactor := totalBudget / sumAllocs allocs
  allocs.map (fun a => (a.1, a.2 * finalScaleFactor))

/-- The result record of `optimizeResourceAllocation` (lines 703-708). -/
structure OptimizationResult where
  originalFSFVI : ℚ
  optimizedFSFVI : ℚ
  originalAllocations : List (String × ℚ)
  optimizedAllocations : List (String × ℚ)
deriving DecidableEq, Repr

/-- The total gradient magnitude the optimizer would compute in its first
iteration (lines 710-773 specialized to the initial state). -/
def firstIterationGradientMagnitude (data : FSFVIData) : ℚ :=
  let processedData := (computeFSFVI data none).processedData
  let originalAllocations := processedData.subsectors.map
    (fun ks => (ks.1, ks.2.totalExpenditures))
  totalGradientMagnitude (computeGradients processedData.subsectors originalAllocations)

/-- Algorithm 4, `optimizeResourceAllocation` (lines 703-874). -/
def optimizeResourceAllocation (data : FSFVIData) : OptimizationResult :=
  let r := computeFSFVI data none
  let originalAllocations := r.processedData.subsectors.map
    (fun ks => (ks.1, ks.2.totalExpenditures))
  let totalBudget := data.totalBudget
  let minAllocations := minAllocationsOf originalAllocations
  let maxAllocations := maxAllocationsOf totalBudget originalAllocations
  let finalSt := optLoop totalBudget minAllocations maxAllocations 100
    { workingSubs := r.processedData.subsectors,
      currentAllocations := originalAllocations,
      currentFSFVI := r.fsfviValue,
      prevFSFVI := none,
      learningRate := 0.1,
      broke := false }
  let finalAllocs := finalRescale totalBudget finalSt.currentAllocations
  let finalSubs := updateWorkingSubs finalSt.workingSubs finalAllocs
  { originalFSFVI := r.fsfviValue,
    optimizedFSFVI := calculateFSFVI { subsectors := finalSubs, totalBudget := totalBudget },
    originalAllocations := originalAllocations,
    optimizedAllocations := finalAllocs }

def mkIndicator (v b : Option ℚ) (g : ℚ) : Indicator :=
  { projectName := "p", matchScore := 1, expenditures := 0,
    value := v, benchmark := b, performanceGap := g }

def mkComponent (nm : String) (inds : List Indicator) (alloc : ℚ) : FSFVIComponent :=
  { id := nm, name := nm, indicators := inds, totalExpenditures := alloc,
    averagePerformanceGap := 0, sensitivityParameter := none,
    weight := none, vulnerability := none }

def dataC2 : FSFVIData := ⟨[("A", mkComponent "A" [] 10)], 100⟩
def dataC3 : FSFVIData :=
  ⟨[("A", mkComponent "A" [mkIndicator (some 1) (some 2) 1] 100)], 10⟩
def dataC5 : FSFVIData := ⟨[("A", mkComponent "A" [] 20)], 60⟩
def dataC6 : FSFVIData :=
  ⟨[("G", mkComponent "G" [mkIndicator (some 1) (some 8) 7] 10)], 10⟩
def dataC4w : FSFVIData := ⟨[("A", mkComponent "A" [] 10)], 20⟩
def dataC5w : FSFVIData := ⟨[("A", mkComponent "A" [] 15)], 15⟩

/-- A one-subsector record used to instantiate the weight-sum theorem. -/
def subsC7 : List (String × FSFVIComponent) := [("A", mkComponent "A" [] 0)]

/-- Six indicators with gaps 1..6, used to instantiate the trimming theorem. -/
def indsC10 : List Indicator :=
  [mkIndicator none none 1, mkIndicator none none 2, mkIndicator none none 3,
   mkIndicator none none 4, mkIndicator none none 5, mkIndicator none none 6]

/-- A one-component optimizer state (gap 1, sensitivity 1/2, weight 1,
allocation 100) used to instantiate the adaptive-step theorem. -/
def stC9 : OptState :=
  { workingSubs := [("A",
      { id := "A", name := "A", indicators := [mkIndicator (some 1) (some 2) 1],
        totalExpenditures := 100, averagePerformanceGap := 1,
        sensitivityParameter := some (1/2), weight := some 1,
        vulnerability := some (1/51) })],
    currentAllocations := [("A", 100)],
    currentFSFVI := 1/51, prevFSFVI := none, learningRate := 1/10, broke := false }

/-- Folding addition of `f` over a list is the initial value plus the sum of
the mapped list (the shape of every `reduce((sum, x) => sum + f(x), 0)` in the
source). -/
theorem foldl_add_sum {α : Type} (f : α → ℚ) (l : List α) (init : ℚ) :
    l.foldl (fun sum x => sum + f x) init = init + (l.map f).sum := by
  induction l generalizing init with
  | nil => simp
  | cons a t ih => simp [ih, add_assoc]

/-- Sanity check that the unfolding of the source's depth-one recursion is
faithful: whenever the options carry `trimOutliers = false` (as the options of
the recursive calls do), `calculateComponentAverageGap` coincides with
`calcAverageGapNoTrim`. -/
theorem calculateComponentAverageGap_trim_false (indicators : List Indicator)
    (options : Option GapOptions) (subsectorId : Option String)
    (h : options.bind GapOptions.trimOutliers = some false) :
    calculateComponentAverageGap indicators options subsectorId
      = calcAverageGapNoTrim indicators options subsectorId := by
  unfold calculateComponentAverageGap calcAverageGapNoTrim
  rw [h]
  simp

/-- Reproduction of the spec's capping scenario: indicator gaps `[1,2,3,20]`
aggregate (with the default cap 8) to `(1+2+3+8)/4 = 3.5`. -/
theorem capping_scenario :
    calculateComponentAverageGap
      [mkIndicator none none 1, mkIndicator none none 2,
       mkIndicator none none 3, mkIndicator none none 20] none none = 7/2 := by
  decide

/-- C1: the claim states `calculatePerformanceGap` is non-negative for all
finite non-null inputs, in particular in the both-negative branch.  The code
violates this: at `value = -1`, `benchmark = -2`, `preferHigher = true` (a
value strictly better than its benchmark under the code's own comment) the
both-negative branch returns `(|v| - |b|)/|v| = -1 < 0`. -/
theorem C1_bothNegative_gap_is_negative :
    calculatePerformanceGap (some (-1)) (some (-2)) true = -1 ∧
    calculatePerformanceGap (some (-1)) (some (-2)) true < 0 := by
  decide

/-- C8: for a fixed gap `≥ 0` and sensitivity `≥ 0`,
`calculateComponentVulnerability` is non-increasing in the allocation
(negative allocations are clamped to 0 first, so monotonicity holds for all
allocation pairs `f₁ ≤ f₂`). -/
theorem C8_vulnerability_nonincreasing (gap s f₁ f₂ : ℚ)
    (hg : 0 ≤ gap) (hs : 0 ≤ s) (hf : f₁ ≤ f₂) :
    calculateComponentVulnerability gap f₂ s ≤ calculateComponentVulnerability gap f₁ s := by
  unfold calculateComponentVulnerability
  have h1 : (0:ℚ) ≤ max 0 f₁ := le_max_left _ _
  have h2 : max 0 f₁ ≤ max 0 f₂ := max_le_max le_rfl hf
  have hp1 : (0:ℚ) < 1 + s * max 0 f₁ := by nlinarith [mul_nonneg hs h1]
  have hdiv : 1 / (1 + s * max 0 f₂) ≤ 1 / (1 + s * max 0 f₁) := by
    apply one_div_le_one_div_of_le hp1
    nlinarith [mul_le_mul_of_nonneg_left h2 hs]
  exact mul_le_mul_of_nonneg_left hdiv hg

/-- Instantiation of `C8_vulnerability_nonincreasing` at gap 1, sensitivity 1,
allocations 0 and 1: the vulnerability falls from 1 to 1/2. -/
theorem C8_witness :
    ((0:ℚ) ≤ 1 ∧ (0:ℚ) ≤ 1 ∧ (0:ℚ) ≤ 1) ∧
    calculateComponentVulnerability 1 1 1 ≤ calculateComponentVulnerability 1 0 1 :=
  ⟨by decide, C8_vulnerability_nonincreasing 1 1 0 1 (by decide) (by decide) (by decide)⟩

/-- C7: whenever the policy multipliers and contextual boosts leave the total
working weight positive, the weights assigned by `assignComponentWeights` sum
to 1 over all components (exactly, hence within `1e-9`). -/
theorem C7_weights_sum_to_one (subsectors : List (String × FSFVIComponent))
    (config : Option WeightConfig)
    (hpos : 0 < totalWorkingWeight subsectors config) :
    |weightSum (assignComponentWeights subsectors config) - 1| ≤ 1 / 1000000000 := by
  have hW : totalWorkingWeight subsectors config ≠ 0 := ne_of_gt hpos
  have h1 : weightSum (assignComponentWeights subsectors config) = 1 := by
    unfold weightSum assignComponentWeights
    rw [foldl_add_sum]
    simp only [List.map_map, Function.comp_def, Option.getD_some, zero_add]
    rw [show (fun ks : String × FSFVIComponent =>
        workingWeight config ks.1 / totalWorkingWeight subsectors config)
      = (fun ks : String × FSFVIComponent =>
        workingWeight config ks.1 * (totalWorkingWeight subsectors config)⁻¹) from
      funext (fun ks => div_eq_mul_inv _ _)]
    rw [List.sum_map_mul_right]
    have hT : totalWorkingWeight subsectors config
        = (subsectors.map (fun ks => workingWeight config ks.1)).sum := by
      unfold totalWorkingWeight
      rw [foldl_add_sum]
      simp
    rw [← hT, mul_inv_cancel₀ hW]
  rw [h1]
  simp

/-- Instantiation of `C7_weights_sum_to_one` on a one-subsector record with no
config: the total working weight is the default 0.025 and the single
normalized weight is 1. -/
theorem C7_witness :
    0 < totalWorkingWeight subsC7 none ∧
    |weightSum (assignComponentWeights subsC7 none) - 1| ≤ 1 / 1000000000 :=
  ⟨by decide, C7_weights_sum_to_one subsC7 none (by decide)⟩

/-- C6 counterexample: on a dataset whose single indicator has gap 7 and a
config-less `computeFSFVI` call, the pipeline's aggregated component gap is 5
(the 5.0 default `computeFSFVI` fills in at line 641), not the `min 7 8 = 7`
that the claimed default cap of 8.0 would give (which is what a direct
`calculateComponentAverageGap` call without options produces). -/
theorem C6_counterexample :
    ((computeFSFVI dataC6 none).processedData.subsectors.lookup "G").map
        FSFVIComponent.averagePerformanceGap = some 5 ∧
    calculateComponentAverageGap [mkIndicator (some 1) (some 8) 7] none (some "G") = 7 ∧
    min (7:ℚ) 8 = 7 ∧ (5:ℚ) ≠ min 7 8 := by
  decide

/-- C6 amended: a direct `calculateComponentAverageGap` call without a cap
option does default the cap to 8.0, but `computeFSFVI` resolves an omitted
`capMaxGap` to 5.0 in its effective config, so the pipeline clamps indicator
gaps at 5.0, not 8.0. -/
theorem C6_default_cap (config : Option FSFVIConfig) (subsectorId : Option String)
    (h : (config.bind FSFVIConfig.gapCalculation).bind GapOptions.capMaxGap = none) :
    initialCap (effectiveConfig config).gapCalculation subsectorId = 5 ∧
    initialCap none subsectorId = 8 := by
  constructor
  · simp [initialCap, effectiveConfig, h]
    norm_num
  · simp [initialCap]
    norm_num

/-- Instantiation of `C6_default_cap` at an absent config. -/
theorem C6_default_cap_witness :
    ((none : Option FSFVIConfig).bind FSFVIConfig.gapCalculation).bind
        GapOptions.capMaxGap = none ∧
    (initialCap (effectiveConfig none).gapCalculation none = 5 ∧
     initialCap none none = 8) :=
  ⟨rfl, C6_default_cap none none rfl⟩

/-- C10: with more than 5 capped valid indicators and trimming enabled,
trimming removes `floor(n*0.1)` indicators from each end, which always leaves
a non-empty list (`2*floor(n*0.1) < n`); consequently the fallback branch that
re-aggregates the untrimmed indicators is unreachable and
`calculateComponentAverageGap` equals the trim-disabled aggregation of the
trimmed set — the recursion terminates at depth one. -/
theorem C10_trim_fallback_unreachable (indicators : List Indicator)
    (options : Option GapOptions) (subsectorId : Option String)
    (h5 : 5 < (cappedValid indicators options subsectorId).length)
    (htrim : (options.bind GapOptions.trimOutliers).getD true = true) :
    trimOutlierSet (cappedValid indicators options subsectorId) ≠ [] ∧
    calculateComponentAverageGap indicators options subsectorId
      = calcAverageGapNoTrim (trimOutlierSet (cappedValid indicators options subsectorId))
          (disableTrim options) subsectorId := by
  have hlen : (trimOutlierSet (cappedValid indicators options subsectorId)).length
      = (cappedValid indicators options subsectorId).length
        - (cappedValid indicators options subsectorId).length / 10
        - (cappedValid indicators options subsectorId).length / 10 := by
    unfold trimOutlierSet
    simp [sortByGap, List.length_mergeSort]
  have hpos : 0 < (trimOutlierSet (cappedValid indicators options subsectorId)).length := by
    rw [hlen]
    omega
  have hne : trimOutlierSet (cappedValid indicators options subsectorId) ≠ [] :=
    List.length_pos.mp hpos
  refine ⟨hne, ?_⟩
  have hvlen : (cappedValid indicators options subsectorId).length
      = (validOf indicators).length := by
    unfold cappedValid capIndicators
    simp
  have hv : ¬ ((validOf indicators).length = 0) := by omega
  unfold calculateComponentAverageGap
  rw [if_neg hv, if_pos ⟨htrim, h5⟩, if_neg (by omega)]

/-- Instantiation of `C10_trim_fallback_unreachable` on six indicators with
gaps 1..6 (trim count 0, trimmed set equal to the whole sorted set). -/
theorem C10_witness :
    (5 < (cappedValid indsC10 none none).length ∧
     ((none : Option GapOptions).bind GapOptions.trimOutliers).getD true = true) ∧
    (trimOutlierSet (cappedValid indsC10 none none) ≠ [] ∧
     calculateComponentAverageGap indsC10 none none
       = calcAverageGapNoTrim (trimOutlierSet (cappedValid indsC10 none none))
           (disableTrim none) none) :=
  ⟨⟨by decide, by decide⟩,
   C10_trim_fallback_unreachable indsC10 none none (by decide) (by decide)⟩

/-- The recorded index never increases across one iteration: an improving
step records the smaller new index, a non-improving step reverts to the
previous one, and a zero-gradient break leaves it untouched. -/
theorem optStep_currentFSFVI_le (totalBudget : ℚ)
    (minAllocations maxAllocations : List (String × ℚ)) (st : OptState) :
    (optStep totalBudget minAllocations maxAllocations st).currentFSFVI
      ≤ st.currentFSFVI := by
  by_cases h1 : totalGradientMagnitude
      (computeGradients st.workingSubs st.currentAllocations) = 0
  · simp [optStep, h1]
  · by_cases h2 : calculateFSFVI
        { subsectors := updateWorkingSubs st.workingSubs
            (iterationAllocations totalBudget st.learningRate minAllocations
              maxAllocations st.workingSubs st.currentAllocations),
          totalBudget := totalBudget } < st.currentFSFVI
    · simp only [optStep, if_neg h1, if_pos h2]
      exact le_of_lt h2
    · simp only [optStep, if_neg h1, if_neg h2]
      exact le_rfl

/-- C3 amended: the descent loop never increases the recorded system index —
after any number of iterations from any state, the recorded `currentFSFVI` is
at most the starting one (so in `optimizeResourceAllocation` the recorded
index stays `≤ originalFSFVI`); the *returned* `optimizedFSFVI`, however, is
recomputed after the final budget rescale and can exceed `originalFSFVI`
(see `C3_counterexample`). -/
theorem C3_loop_index_nonincreasing (totalBudget : ℚ)
    (minAllocations maxAllocations : List (String × ℚ)) (n : Nat) (st : OptState) :
    (optLoop totalBudget minAllocations maxAllocations n st).currentFSFVI
      ≤ st.currentFSFVI := by
  induction n generalizing st with
  | zero => exact le_rfl
  | succ n ih =>
    unfold optLoop
    split
    · exact le_rfl
    · split
      · exact le_trans (ih _) (optStep_currentFSFVI_le _ _ _ _)
      · exact le_rfl

/-- C3 counterexample: on a one-component dataset with original allocation
100 and budget 10, the loop's only iteration is non-improving (allocation is
forced down to the budget), the recorded index is reverted, yet the retained
allocations are rescaled to the budget, and the returned `optimizedFSFVI`
(1/6) exceeds `originalFSFVI` (1/51) by far more than `1e-9`. -/
theorem C3_counterexample :
    (optimizeResourceAllocation dataC3).originalFSFVI = 1/51 ∧
    (optimizeResourceAllocation dataC3).optimizedFSFVI = 1/6 ∧
    ¬ ((optimizeResourceAllocation dataC3).optimizedFSFVI
        ≤ (optimizeResourceAllocation dataC3).originalFSFVI + 1/1000000000) := by
  decide

/-- Scaling every allocation by a constant scales the total. -/
theorem sumAllocs_map_mul (l : List (String × ℚ)) (c : ℚ) :
    sumAllocs (l.map (fun a => (a.1, a.2 * c))) = sumAllocs l * c := by
  unfold sumAllocs
  rw [foldl_add_sum Prod.snd, foldl_add_sum Prod.snd]
  simp [List.map_map, Function.comp_def, List.sum_map_mul_right]

/-- The final rescale restores the budget exactly whenever any rescaled
allocation is positive (which rules out a zero pre-rescale total). -/
theorem finalRescale_sum (totalBudget : ℚ) (l : List (String × ℚ))
    (h : ∃ p ∈ finalRescale totalBudget l, 0 < p.2) :
    sumAllocs (finalRescale totalBudget l) = totalBudget := by
  by_cases hT : sumAllocs l = 0
  · exfalso
    obtain ⟨p, hp, hpos⟩ := h
    unfold finalRescale at hp
    rw [hT, div_zero] at hp
    obtain ⟨a, _, rfl⟩ := List.mem_map.mp hp
    simp at hpos
  · unfold finalRescale
    rw [sumAllocs_map_mul, mul_comm, div_mul_cancel₀ _ hT]

/-- C4: whenever at least one returned allocation is positive, the optimized
allocations sum to the total budget (exactly in the rational model, hence
within `1e-6`), regardless of whether the input allocations summed to it. -/
theorem C4_budget_restored (data : FSFVIData)
    (h : ∃ p ∈ (optimizeResourceAllocation data).optimizedAllocations, 0 < p.2) :
    |sumAllocs (optimizeResourceAllocation data).optimizedAllocations
      - data.totalBudget| ≤ 1 / 1000000 := by
  have key : sumAllocs (optimizeResourceAllocation data).optimizedAllocations
      = data.totalBudget := finalRescale_sum data.totalBudget _ h
  rw [key]
  simp

/-- Instantiation of `C4_budget_restored`: one component with original
allocation 10 and budget 20; the returned allocation is 20 and the sum
matches the budget. -/
theorem C4_witness :
    (∃ p ∈ (optimizeResourceAllocation dataC4w).optimizedAllocations, 0 < p.2) ∧
    |sumAllocs (optimizeResourceAllocation dataC4w).optimizedAllocations
      - dataC4w.totalBudget| ≤ 1 / 1000000 :=
  ⟨by decide, C4_budget_restored dataC4w (by decide)⟩

/-- Once the zero-gradient `break` has fired, the loop makes no further
change. -/
theorem optLoop_of_broke (totalBudget : ℚ)
    (minAllocations maxAllocations : List (String × ℚ)) (n : Nat) (st : OptState)
    (h : st.broke = true) :
    optLoop totalBudget minAllocations maxAllocations n st = st := by
  cases n with
  | zero => rfl
  | succ n => unfold optLoop; rw [if_pos h]

/-- A zero total gradient magnitude at loop entry makes the whole loop leave
the allocations untouched (the `break` at line 775 fires before any update). -/
theorem optLoop_zero_gradient (totalBudget : ℚ)
    (minAllocations maxAllocations : List (String × ℚ)) (n : Nat) (st : OptState)
    (hb : st.broke = false)
    (hz : totalGradientMagnitude (computeGradients st.workingSubs st.currentAllocations) = 0) :
    (optLoop totalBudget minAllocations maxAllocations n st).currentAllocations
      = st.currentAllocations := by
  cases n with
  | zero => rfl
  | succ n =>
    unfold optLoop
    rw [if_neg (by simp [hb])]
    have hstep : optStep totalBudget minAllocations maxAllocations st
        = { st with prevFSFVI := some st.currentFSFVI, broke := true } := by
      simp only [optStep, if_pos hz]
    by_cases hc : loopCond st = true
    · rw [if_pos hc, hstep, optLoop_of_broke]
      rfl
    · rw [if_neg hc]

/-- C5 counterexample: on a one-component dataset with original allocation 20
and budget 60 all first-iteration gradients are zero (the component's gap is
0), the loop exits early, yet the returned allocation is the rescaled 60, not
the original 20. -/
theorem C5_counterexample :
    firstIterationGradientMagnitude dataC5 = 0 ∧
    (optimizeResourceAllocation dataC5).originalAllocations.lookup "A" = some 20 ∧
    (optimizeResourceAllocation dataC5).optimizedAllocations.lookup "A" = some 60 ∧
    ((60:ℚ) ≠ 20) := by
  decide

/-- C5 amended: when every first-iteration gradient is zero the optimizer
exits its loop early with the allocations untouched, but the returned
`optimizedAllocations` are the original allocations passed through the final
budget rescale (`* totalBudget / Σ original`) — equal to the originals
exactly when they already sum to a non-zero total budget. -/
theorem C5_zero_gradient_rescaled_originals (data : FSFVIData)
    (h : firstIterationGradientMagnitude data = 0) :
    (optimizeResourceAllocation data).optimizedAllocations
      = finalRescale data.totalBudget
          (optimizeResourceAllocation data).originalAllocations := by
  unfold firstIterationGradientMagnitude at h
  simp only [optimizeResourceAllocation]
  rw [optLoop_zero_gradient]
  · rfl
  · exact h

/-- Instantiation of `C5_zero_gradient_rescaled_originals` on a dataset whose
allocations already sum to the budget (allocation 15, budget 15). -/
theorem C5_witness :
    firstIterationGradientMagnitude dataC5w = 0 ∧
    (optimizeResourceAllocation dataC5w).optimizedAllocations
      = finalRescale dataC5w.totalBudget
          (optimizeResourceAllocation dataC5w).originalAllocations :=
  ⟨by decide, C5_zero_gradient_rescaled_originals dataC5w (by decide)⟩

/-- C9: in every iteration that is not cut short by the zero-gradient break,
the newly computed allocations are retained unconditionally, while the
adaptive step compares the recomputed index with the previous one — on
improvement the learning rate grows by 1.1 and the new index is recorded;
otherwise the learning rate halves and the recorded index reverts to the
previous one (the allocations are *not* reverted). -/
theorem C9_adaptive_step (totalBudget : ℚ)
    (minAllocations maxAllocations : List (String × ℚ)) (st : OptState)
    (h : totalGradientMagnitude
      (computeGradients st.workingSubs st.currentAllocations) ≠ 0) :
    (optStep totalBudget minAllocations maxAllocations st).currentAllocations
      = iterationAllocations totalBudget st.learningRate minAllocations maxAllocations
          st.workingSubs st.currentAllocations ∧
    (if iterationIndex totalBudget minAllocations maxAllocations st < st.currentFSFVI then
      (optStep totalBudget minAllocations maxAllocations st).learningRate
          = st.learningRate * 1.1 ∧
      (optStep totalBudget minAllocations maxAllocations st).currentFSFVI
          = iterationIndex totalBudget minAllocations maxAllocations st
    else
      (optStep totalBudget minAllocations maxAllocations st).learningRate
          = st.learningRate * 0.5 ∧
      (optStep totalBudget minAllocations maxAllocations st).currentFSFVI
          = st.currentFSFVI) := by
  by_cases h2 : iterationIndex totalBudget minAllocations maxAllocations st
      < st.currentFSFVI
  · unfold iterationIndex at h2
    refine ⟨?_, ?_⟩
    · simp only [optStep, if_neg h, if_pos h2]
    · rw [if_pos (by unfold iterationIndex; exact h2)]
      unfold iterationIndex
      constructor
      · simp only [optStep, if_neg h, if_pos h2]
      · simp only [optStep, if_neg h, if_pos h2]
  · unfold iterationIndex at h2
    refine ⟨?_, ?_⟩
    · simp only [optStep, if_neg h, if_neg h2]
    · rw [if_neg (by unfold iterationIndex; exact h2)]
      constructor
      · simp only [optStep, if_neg h, if_neg h2]
      · simp only [optStep, if_neg h, if_neg h2]

/-- Instantiation of `C9_adaptive_step` on a non-improving iteration (the
budget forces the allocation from 100 down to 10, raising the index from 1/51
to 1/6): the learning rate halves, the recorded index reverts, and the new
allocations are kept. -/
theorem C9_witness :
    (optStep 10 [("A", 1)] [("A", 4)] stC9).currentAllocations
      = iterationAllocations 10 stC9.learningRate [("A", 1)] [("A", 4)]
          stC9.workingSubs stC9.currentAllocations ∧
    (if iterationIndex 10 [("A", 1)] [("A", 4)] stC9 < stC9.currentFSFVI then
      (optStep 10 [("A", 1)] [("A", 4)] stC9).learningRate = stC9.learningRate * 1.1 ∧
      (optStep 10 [("A", 1)] [("A", 4)] stC9).currentFSFVI
          = iterationIndex 10 [("A", 1)] [("A", 4)] stC9
    else
      (optStep 10 [("A", 1)] [("A", 4)] stC9).learningRate = stC9.learningRate * 0.5 ∧
      (optStep 10 [("A", 1)] [("A", 4)] stC9).currentFSFVI = stC9.currentFSFVI) :=
  C9_adaptive_step 10 [("A", 1)] [("A", 4)] stC9 (by decide)

/-- C2 counterexample: on a one-component dataset with original allocation 10
and budget 100, the zero-gradient break leaves the allocation at 10 and the
final rescale then returns 100, far above the bound
`max_A = min(2*10, 0.4*100) = 20` — the returned allocations are not within
`[min_i, max_i]`. -/
theorem C2_counterexample :
    (optimizeResourceAllocation dataC2).optimizedAllocations.lookup "A" = some 100 ∧
    (minAllocationsOf (optimizeResourceAllocation dataC2).originalAllocations).lookup "A"
      = some (1/10) ∧
    (maxAllocationsOf dataC2.totalBudget
      (optimizeResourceAllocation dataC2).originalAllocations).lookup "A" = some 20 ∧
    ¬ ((100:ℚ) ≤ 20) := by
  decide

/-- C2 amended: the per-iteration proposal step does clamp every tentative
allocation into `[min_i, max_i]` (whenever `min_i ≤ max_i`), but the
subsequent budget rescaling, redistribution and the final rescale are not
re-clamped against the upper bounds, so the *returned* allocations can
violate them (see `C2_counterexample`). -/
theorem C2_tentative_within_bounds (totalBudget learningRate totalMag : ℚ)
    (minAllocations maxAllocations gradients allocs : List (String × ℚ))
    (p : String × ℚ)
    (hp : p ∈ tentativeAllocationsOf totalBudget learningRate totalMag
      minAllocations maxAllocations gradients allocs)
    (hminmax : lookupD minAllocations p.1 ≤ lookupD maxAllocations p.1) :
    lookupD minAllocations p.1 ≤ p.2 ∧ p.2 ≤ lookupD maxAllocations p.1 := by
  unfold tentativeAllocationsOf at hp
  obtain ⟨g, hg, hpe⟩ := List.mem_map.mp hp
  subst hpe
  dsimp only at hminmax ⊢
  exact ⟨le_min (le_max_right _ _) hminmax, min_le_right _ _⟩

/-- Instantiation of `C2_tentative_within_bounds`: one component, gradient
-1, magnitude 1, allocation 10, budget 100 — the proposal 20 is clamped into
`[1/10, 20]`. -/
theorem C2_witness :
    (("A", (20:ℚ)) ∈ tentativeAllocationsOf 100 (1/10) 1 [("A", 1/10)] [("A", 20)]
        [("A", -1)] [("A", 10)] ∧
     lookupD [("A", (1/10:ℚ))] "A" ≤ lookupD [("A", (20:ℚ))] "A") ∧
    (lookupD [("A", (1/10:ℚ))] "A" ≤ (("A", (20:ℚ)) : String × ℚ).2 ∧
     (("A", (20:ℚ)) : String × ℚ).2 ≤ lookupD [("A", (20:ℚ))] "A") :=
  ⟨⟨by decide, by decide⟩,
   C2_tentative_within_bounds 100 (1/10) 1 [("A", 1/10)] [("A", 20)]
     [("A", -1)] [("A", 10)] ("A", 20) (by decide) (by decide)⟩
